import Mathlib

set_option maxRecDepth 8000

/-
  Shallow embedding of the FDC1004 ESP32 firmware sketch
  (hardware/FDC1004-Serial-Python/FDC1004-Serial-Python.ino).

  The firmware keeps a handful of global variables, reads one-byte opcodes
  from the serial link in loop(), and dispatches to three handlers:
  set_capdac (opcode 0x00), setSamplesToGet (opcode 0x01) and collectData
  (opcode 0x02).  Each handler is modelled as a function from its serial
  environment to a list of primitive actions (serial writes and global-state
  stores), in the exact order the corresponding C statements execute.
  Folding the action list over a state gives the resulting global state;
  the action list itself carries the ordering information (which store
  happens before which serial write) that several claims are about.

  Serial environment conventions used by the handler models:
  - avail i    : whether Serial.available() > 0 at the i-th poll iteration
                 of a configuration handler (each iteration is one
                 delay(10) / timeout++ step of the source loop);
  - buf        : the buffered bytes consumed by Serial.parseInt once data
                 is available;
  - incoming i : the byte returned by Serial.read() at the i-th poll
                 iteration of the collectData handshake loop, when a byte
                 is available there (none when the buffer is empty);
  - readings k : the pair captured for the k-th sample of a session, i.e.
                 the value of (uint32_t)esp_timer_get_time() and of
                 myFDC1004.getRawCapacitance(measurement, rate).

  ASCII bytes: the marker O is byte 79, the marker F is byte 70, the
  start-acquisition payload S is byte 83.
-/

namespace FDC

/-- The cap_sens_reading struct of the sketch: a uint32_t timestamp
(microseconds) and an int32_t raw sensor value, modelled as Nat and Int
with explicit 32-bit range conditions where overflow matters. -/
structure cap_sens_reading where
  cap_sens_timestamp : Nat
  cap_sens_data : Int
  deriving Repr, DecidableEq

/-- The global variables of the sketch.  The sensorOffset field is the
offset stored inside the FDC1004 sensor configuration registers; see
configureSensor below for its provenance. -/
structure DeviceState where
  capdac : Int
  samplesToGet : Int
  samplesSent : Int
  pcCommand : Int
  timer_interruptFlag : Bool
  timerRunning : Bool
  timerCounter : Nat
  sensorOffset : Int
  deriving Repr, DecidableEq

/-- Modelled from the spec: the FDC1004 driver sources (FDC1004.h and
FDC1004.cpp) are not under src, so the driver is taken as the spec
describes it, a black box exposing configure(channel, sensor_input,
offset) which stores the offset into the sensor measurement
configuration, and read_raw(channel, rate) which measures using the
stored configuration.  configureSensor models the effect of
myFDC1004.setupSingleMeasurement(measurement, sensor, capdac) on the
sensor: it records the offset passed at the call. -/
def configureSensor (s : DeviceState) (v : Int) : DeviceState :=
  { s with sensorOffset := v }

/-- The state right after setup() has run: the globals hold their
initializers (samplesToGet = 100, capdac = 0, samplesSent = 0,
pcCommand = -1, timer_interruptFlag = false), tg_timer_init leaves the
timer paused with its counter at 0, and setupSingleMeasurement is called
once with the then-current capdac (0). -/
def setup : DeviceState :=
  configureSensor
    { capdac := 0, samplesToGet := 100, samplesSent := 0, pcCommand := -1,
      timer_interruptFlag := false, timerRunning := false, timerCounter := 0,
      sensorOffset := 0 } 0

/-- One primitive effect of a handler, in source statement order:
writeByte is Serial.write of one raw byte (the opcode echo), printByte is
Serial.print of a one-character marker string (reduced to its ASCII
byte), writeRecord is Serial.write of the 8-byte cap_sens_reading
struct, and the remaining constructors are the stores to the globals and
the esp-idf timer driver calls. -/
inductive Action where
  | writeByte (b : Nat)
  | printByte (b : Nat)
  | storeCapdac (v : Int)
  | storeSamplesToGet (v : Int)
  | timerStart
  | timerPause
  | timerSetCounter (v : Nat)
  | clearFlag
  | writeRecord (r : cap_sens_reading)
  | storeSamplesSent (v : Int)
  deriving Repr, DecidableEq

/-- Effect of one action on the global state.  Serial writes do not
change the state. -/
def applyAction (s : DeviceState) : Action → DeviceState
  | .writeByte _ => s
  | .printByte _ => s
  | .storeCapdac v => { s with capdac := v }
  | .storeSamplesToGet v => { s with samplesToGet := v }
  | .timerStart => { s with timerRunning := true }
  | .timerPause => { s with timerRunning := false }
  | .timerSetCounter v => { s with timerCounter := v }
  | .clearFlag => { s with timer_interruptFlag := false }
  | .writeRecord _ => s
  | .storeSamplesSent v => { s with samplesSent := v }

/-- Run a whole action trace over a state. -/
def runTrace (s : DeviceState) (tr : List Action) : DeviceState :=
  tr.foldl applyAction s

/-- Arduino Stream.parseInt, first phase: skip buffered bytes until a
minus sign or an ASCII digit is seen. -/
def skipToNumeric : List Nat → List Nat
  | [] => []
  | b :: bs => if b = 45 ∨ (48 ≤ b ∧ b ≤ 57) then b :: bs else skipToNumeric bs

/-- Arduino Stream.parseInt, second phase: accumulate the maximal run of
ASCII decimal digits. -/
def parseDigits (acc : Nat) : List Nat → Nat
  | [] => acc
  | b :: bs => if 48 ≤ b ∧ b ≤ 57 then parseDigits (acc * 10 + (b - 48)) bs else acc

/-- Serial.parseInt over the buffered payload bytes: skip to the first
numeric character, honour a leading minus sign, then read the digit run
(0 when no digits arrive). -/
def parseInt (bs : List Nat) : Int :=
  match skipToNumeric bs with
  | 45 :: rest => - (parseDigits 0 rest : Int)
  | rest => (parseDigits 0 rest : Int)

/-- ASCII decimal encoding of a natural number, digit bytes most
significant first (fuel-based recursion on the value). -/
def natToDecimalAux : Nat → Nat → List Nat
  | 0, _ => []
  | fuel + 1, n =>
      if n < 10 then [48 + n] else natToDecimalAux fuel (n / 10) ++ [48 + n % 10]

/-- ASCII decimal encoding of a natural number. -/
def natToDecimal (n : Nat) : List Nat :=
  natToDecimalAux (n + 1) n

/-- The four little-endian bytes of a 32-bit word, as stored in memory on
the ESP32 and written verbatim by Serial.write of the struct. -/
def toLEBytes4 (n : Nat) : List Nat :=
  [n % 256, n / 256 % 256, n / 65536 % 256, n / 16777216 % 256]

/-- Reassemble a 32-bit word from its four little-endian bytes. -/
def fromLEBytes4 (b0 b1 b2 b3 : Nat) : Nat :=
  b0 + 256 * b1 + 65536 * b2 + 16777216 * b3

/-- Two's-complement 32-bit image of a signed value, as the int32_t field
is laid out in memory. -/
def uint32OfInt32 (v : Int) : Nat :=
  (v % 4294967296).toNat

/-- Read a two's-complement 32-bit word back as a signed value. -/
def int32OfUint32 (n : Nat) : Int :=
  if n < 2147483648 then (n : Int) else (n : Int) - 4294967296

/-- The 8 raw bytes Serial.write sends for one cap_sens_reading struct:
the timestamp field first (4 bytes), the data field next (4 bytes), no
padding (both fields are 4-byte aligned and 4 bytes wide). -/
def encodeRecord (r : cap_sens_reading) : List Nat :=
  toLEBytes4 r.cap_sens_timestamp ++ toLEBytes4 (uint32OfInt32 r.cap_sens_data)

/-- Decode an 8-byte wire record back into the struct. -/
def decodeRecord : List Nat → Option cap_sens_reading
  | [b0, b1, b2, b3, b4, b5, b6, b7] =>
      some ⟨fromLEBytes4 b0 b1 b2 b3, int32OfUint32 (fromLEBytes4 b4 b5 b6 b7)⟩
  | _ => none

/-- The polling loop shared by set_capdac and setSamplesToGet:
while (timeout < 200), if Serial.available() > 0 the loop stops at the
current iteration, else delay(10) and timeout++.  Returns the iteration
index at which data was first available, none when the retry budget is
exhausted.  The fuel argument is the number of iterations left
(200 - timeout). -/
def pollAvail (avail : Nat → Bool) : Nat → Nat → Option Nat
  | _, 0 => none
  | t, fuel + 1 => if avail t then some t else pollAvail avail (t + 1) fuel

/-- The collectData handshake loop: while (timeout < 200), if a byte is
available it is read and compared against S (byte 83); the byte S breaks
out of the loop, any other byte is consumed and polling continues.
Returns whether S was observed within the budget. -/
def pollForS (incoming : Nat → Option Nat) : Nat → Nat → Bool
  | _, 0 => false
  | t, fuel + 1 =>
      match incoming t with
      | some b => if b = 83 then true else pollForS incoming (t + 1) fuel
      | none => pollForS incoming (t + 1) fuel

/-- The set_capdac handler: echo byte 0x00, poll up to 200 times for a
payload; on availability store Serial.parseInt into capdac and print the
marker O (79); on timeout print the marker F (70). -/
def set_capdac (avail : Nat → Bool) (buf : List Nat) : List Action :=
  Action.writeByte 0x00 ::
    (match pollAvail avail 0 200 with
     | some _ => [Action.storeCapdac (parseInt buf), Action.printByte 79]
     | none => [Action.printByte 70])

/-- The setSamplesToGet handler: echo byte 0x01, poll up to 200 times;
on availability store Serial.parseInt into samplesToGet and print O; on
timeout print F. -/
def setSamplesToGet (avail : Nat → Bool) (buf : List Nat) : List Action :=
  Action.writeByte 0x01 ::
    (match pollAvail avail 0 200 with
     | some _ => [Action.storeSamplesToGet (parseInt buf), Action.printByte 79]
     | none => [Action.printByte 70])

/-- The acquisition while loop of collectData, unrolled over its
effective iterations.  Each recursive step models one pass in which
timer_interruptFlag is observed true: the flag is cleared, the timestamp
and sensor value are captured (the environment function readings, at the
running sample index k), the 8-byte struct is written, and samplesSent
is incremented.  Passes that observe the flag false touch no state and
produce no output, so they are not represented; the remaining iteration
count (samplesToGet - samplesSent at entry) drives the recursion. -/
def acqIter (readings : Nat → cap_sens_reading) : Nat → Int → Nat → List Action
  | _, _, 0 => []
  | k, sent, r + 1 =>
      Action.clearFlag :: Action.writeRecord (readings k) ::
        Action.storeSamplesSent (sent + 1) :: acqIter readings (k + 1) (sent + 1) r

/-- The collectData handler: echo byte 0x02, run the handshake loop; on
timeout print F and return; on success print O, start the timer, run the
acquisition loop, then pause the timer, reset its counter to 0 and reset
samplesSent to 0.  The sent and toGet arguments are the values of the
globals samplesSent and samplesToGet at entry. -/
def collectData (sent toGet : Int) (incoming : Nat → Option Nat)
    (readings : Nat → cap_sens_reading) : List Action :=
  Action.writeByte 0x02 ::
    (if pollForS incoming 0 200 then
      Action.printByte 79 :: Action.timerStart ::
        (acqIter readings 0 sent (toGet - sent).toNat ++
          [Action.timerPause, Action.timerSetCounter 0, Action.storeSamplesSent 0])
     else [Action.printByte 70])

/-- The three command handlers the dispatcher can enter. -/
inductive Handler where
  | setCapdacH
  | setSamplesH
  | collectH
  deriving Repr, DecidableEq

/-- Which handler the if-else chain of loop() selects for a given value
of pcCommand; none means the iteration falls through every branch (the
dispatcher stays idle). -/
def dispatch (pc : Int) : Option Handler :=
  if pc = 0x00 then some Handler.setCapdacH
  else if pc = 0x01 then some Handler.setSamplesH
  else if pc = 0x02 then some Handler.collectH
  else none

/-- The serial environment one loop() iteration may consume: the byte
read at the top of loop() when available, and the handler-level inputs
described in the file header. -/
structure LoopInput where
  inByte : Option Nat
  avail : Nat → Bool
  buf : List Nat
  incoming : Nat → Option Nat
  readings : Nat → cap_sens_reading

/-- The if-else chain of loop() on the current value of pcCommand: run
the selected handler and reset pcCommand to -1, or fall through leaving
pcCommand as it is. -/
def loopDispatch (s : DeviceState) (pc : Int) (inp : LoopInput) :
    DeviceState × List Action :=
  if pc = 0x00 then
    ({ runTrace s (set_capdac inp.avail inp.buf) with pcCommand := -1 },
      set_capdac inp.avail inp.buf)
  else if pc = 0x01 then
    ({ runTrace s (setSamplesToGet inp.avail inp.buf) with pcCommand := -1 },
      setSamplesToGet inp.avail inp.buf)
  else if pc = 0x02 then
    ({ runTrace s (collectData s.samplesSent s.samplesToGet inp.incoming inp.readings)
        with pcCommand := -1 },
      collectData s.samplesSent s.samplesToGet inp.incoming inp.readings)
  else
    ({ s with pcCommand := pc }, [])

/-- One invocation of loop(): if a byte is available it is read into
pcCommand; then the if-else chain runs.  Returns the new global state
and the action trace of the iteration. -/
def loop (s : DeviceState) (inp : LoopInput) : DeviceState × List Action :=
  loopDispatch s
    (match inp.inByte with
     | some b => (b : Int)
     | none => s.pcCommand) inp

/-- Records written in a trace, in order. -/
def recordsOf (tr : List Action) : List cap_sens_reading :=
  tr.filterMap (fun a => match a with
    | Action.writeRecord r => some r
    | _ => none)

/-- True when some writeRecord action occurs anywhere in the trace. -/
def containsRecord : List Action → Bool
  | [] => false
  | Action.writeRecord _ :: _ => true
  | _ :: tr => containsRecord tr

/-- True when some writeRecord action occurs strictly after a print of
the marker O (byte 79), i.e. when part of the sample stream is emitted
only after the success marker has already been sent. -/
def recordAfterMarkerO : List Action → Bool
  | [] => false
  | Action.printByte b :: tr =>
      if b = 79 then containsRecord tr else recordAfterMarkerO tr
  | _ :: tr => recordAfterMarkerO tr

/-- Program counter of the acquisition loop with respect to the shared
flag: idle is outside the if body, observed is the window after the
condition (timer_interruptFlag == true) evaluated to true and before the
statement timer_interruptFlag = false has executed. -/
inductive FlagPC where
  | idle
  | observed
  deriving Repr, DecidableEq

/-- Shared-memory state for the interrupt-to-loop handoff, with two ghost
fields: inWindowSet records that the ISR has set the flag while the loop
sat between its read and its clear, and lostInWindow counts such sets
that the subsequent clear erased (the set leaves the flag false and is
never observable afterwards). -/
structure HandoffState where
  timer_interruptFlag : Bool
  pc : FlagPC
  inWindowSet : Bool
  lostInWindow : Nat
  deriving Repr, DecidableEq

/-- The three primitive shared-memory steps of the source: isrSet is the
body of timer_group_isr_callback (timer_interruptFlag = true), loopRead
is the loop evaluating the condition (timer_interruptFlag == true), and
loopClear is the separate statement timer_interruptFlag = false that the
source executes afterwards.  The read and the clear are two distinct
machine accesses in the source, so an isrSet may interleave between
them. -/
inductive HandoffEvent where
  | isrSet
  | loopRead
  | loopClear
  deriving Repr, DecidableEq

/-- One interleaved step of the handoff system. -/
def hstep (s : HandoffState) : HandoffEvent → HandoffState
  | HandoffEvent.isrSet =>
      { s with timer_interruptFlag := true,
               inWindowSet := if s.pc = FlagPC.observed then true else s.inWindowSet }
  | HandoffEvent.loopRead =>
      if s.pc = FlagPC.idle ∧ s.timer_interruptFlag = true then
        { s with pc := FlagPC.observed }
      else s
  | HandoffEvent.loopClear =>
      if s.pc = FlagPC.observed then
        { s with timer_interruptFlag := false, pc := FlagPC.idle,
                 inWindowSet := false,
                 lostInWindow := s.lostInWindow + (if s.inWindowSet then 1 else 0) }
      else s

/-- Run a schedule of interleaved handoff events. -/
def runHandoff (s : HandoffState) (es : List HandoffEvent) : HandoffState :=
  es.foldl hstep s

/-- Initial handoff state: flag clear, loop outside the window. -/
def initHandoff : HandoffState :=
  { timer_interruptFlag := false, pc := FlagPC.idle,
    inWindowSet := false, lostInWindow := 0 }

-- -----------------------------------------------------------------------
-- Helper lemmas
-- -----------------------------------------------------------------------

theorem pollAvail_eq_none (avail : Nat → Bool) :
    ∀ fuel t, (∀ i, i < fuel → avail (t + i) = false) →
      pollAvail avail t fuel = none := by
  intro fuel
  induction fuel with
  | zero => intro t _; rfl
  | succ n ih =>
    intro t h
    have h0 : avail t = false := by simpa using h 0 (Nat.succ_pos n)
    simp only [pollAvail, h0, Bool.false_eq_true, if_false]
    exact ih (t + 1) (fun i hi => by
      have := h (i + 1) (Nat.succ_lt_succ hi)
      simpa [Nat.add_assoc, Nat.add_comm 1 i] using this)

theorem pollAvail_eq_some (avail : Nat → Bool) :
    ∀ fuel t u, pollAvail avail t fuel = some u →
      t ≤ u ∧ u < t + fuel ∧ avail u = true := by
  intro fuel
  induction fuel with
  | zero => intro t u h; simp [pollAvail] at h
  | succ n ih =>
    intro t u h
    by_cases ha : avail t
    · simp only [pollAvail, ha, if_true, Option.some.injEq] at h
      exact ⟨h ▸ Nat.le_refl t, h ▸ Nat.lt_add_of_pos_right (Nat.succ_pos n), h ▸ ha⟩
    · simp only [pollAvail, ha, Bool.false_eq_true, if_false] at h
      obtain ⟨h1, h2, h3⟩ := ih (t + 1) u h
      exact ⟨Nat.le_of_succ_le h1, by omega, h3⟩

theorem pollForS_eq_false (incoming : Nat → Option Nat) :
    ∀ fuel t, (∀ i, i < fuel → incoming (t + i) ≠ some 83) →
      pollForS incoming t fuel = false := by
  intro fuel
  induction fuel with
  | zero => intro t _; rfl
  | succ n ih =>
    intro t h
    have hrec : pollForS incoming (t + 1) n = false :=
      ih (t + 1) (fun i hi => by
        have := h (i + 1) (Nat.succ_lt_succ hi)
        simpa [Nat.add_assoc, Nat.add_comm 1 i] using this)
    have h0 := h 0 (Nat.succ_pos n)
    simp only [Nat.add_zero] at h0
    cases hI : incoming t with
    | none => simpa [pollForS, hI] using hrec
    | some b =>
      have hb : ¬ b = 83 := by
        intro hb; exact h0 (by simpa [hb] using hI)
      simpa [pollForS, hI, hb] using hrec

theorem pollForS_eq_true (incoming : Nat → Option Nat) :
    ∀ fuel t, pollForS incoming t fuel = true →
      ∃ u, t ≤ u ∧ u < t + fuel ∧ incoming u = some 83 := by
  intro fuel
  induction fuel with
  | zero => intro t h; simp [pollForS] at h
  | succ n ih =>
    intro t h
    cases hI : incoming t with
    | none =>
      simp only [pollForS, hI] at h
      obtain ⟨u, h1, h2, h3⟩ := ih (t + 1) h
      exact ⟨u, Nat.le_of_succ_le h1, by omega, h3⟩
    | some b =>
      by_cases hb : b = 83
      · exact ⟨t, Nat.le_refl t, Nat.lt_add_of_pos_right (Nat.succ_pos n),
          by simpa [hb] using hI⟩
      · simp only [pollForS, hI, hb, if_false] at h
        obtain ⟨u, h1, h2, h3⟩ := ih (t + 1) h
        exact ⟨u, Nat.le_of_succ_le h1, by omega, h3⟩

theorem runTrace_append (s : DeviceState) (l1 l2 : List Action) :
    runTrace s (l1 ++ l2) = runTrace (runTrace s l1) l2 :=
  List.foldl_append applyAction s l1 l2

theorem recordsOf_acqIter (readings : Nat → cap_sens_reading) :
    ∀ r k sent, (recordsOf (acqIter readings k sent r)).length = r := by
  intro r
  induction r with
  | zero => intro k sent; rfl
  | succ n ih =>
    intro k sent
    simp only [acqIter, recordsOf, List.filterMap_cons]
    simpa [recordsOf] using ih (k + 1) (sent + 1)

theorem acqIter_no_timer (readings : Nat → cap_sens_reading) :
    ∀ r k sent, Action.timerStart ∉ acqIter readings k sent r ∧
      Action.timerPause ∉ acqIter readings k sent r := by
  intro r
  induction r with
  | zero => intro k sent; simp [acqIter]
  | succ n ih =>
    intro k sent
    obtain ⟨h1, h2⟩ := ih (k + 1) (sent + 1)
    simp [acqIter, h1, h2]

theorem runTrace_acqIter_fields (readings : Nat → cap_sens_reading) :
    ∀ r k sent s, (runTrace s (acqIter readings k sent r)).capdac = s.capdac ∧
      (runTrace s (acqIter readings k sent r)).samplesToGet = s.samplesToGet ∧
      (runTrace s (acqIter readings k sent r)).timerRunning = s.timerRunning ∧
      (runTrace s (acqIter readings k sent r)).timerCounter = s.timerCounter ∧
      (runTrace s (acqIter readings k sent r)).sensorOffset = s.sensorOffset := by
  intro r
  induction r with
  | zero => intro k sent s; exact ⟨rfl, rfl, rfl, rfl, rfl⟩
  | succ n ih =>
    intro k sent s
    simpa [acqIter, runTrace, applyAction] using
      ih (k + 1) (sent + 1)
        { s with timer_interruptFlag := false, samplesSent := sent + 1 }

theorem collectData_success_eq (sent toGet : Int) (incoming : Nat → Option Nat)
    (readings : Nat → cap_sens_reading) (hS : pollForS incoming 0 200 = true) :
    collectData sent toGet incoming readings =
      Action.writeByte 0x02 :: Action.printByte 79 :: Action.timerStart ::
        (acqIter readings 0 sent (toGet - sent).toNat ++
          [Action.timerPause, Action.timerSetCounter 0, Action.storeSamplesSent 0]) := by
  simp [collectData, hS]

theorem collectData_timeout_eq (sent toGet : Int) (incoming : Nat → Option Nat)
    (readings : Nat → cap_sens_reading) (hS : pollForS incoming 0 200 = false) :
    collectData sent toGet incoming readings =
      [Action.writeByte 0x02, Action.printByte 70] := by
  simp [collectData, hS]

theorem runTrace_collectData_success (s : DeviceState) (incoming : Nat → Option Nat)
    (readings : Nat → cap_sens_reading) (hS : pollForS incoming 0 200 = true) :
    (runTrace s (collectData s.samplesSent s.samplesToGet incoming readings)).timerRunning
        = false ∧
    (runTrace s (collectData s.samplesSent s.samplesToGet incoming readings)).timerCounter
        = 0 ∧
    (runTrace s (collectData s.samplesSent s.samplesToGet incoming readings)).samplesSent
        = 0 ∧
    (runTrace s (collectData s.samplesSent s.samplesToGet incoming readings)).capdac
        = s.capdac ∧
    (runTrace s (collectData s.samplesSent s.samplesToGet incoming readings)).samplesToGet
        = s.samplesToGet ∧
    (runTrace s (collectData s.samplesSent s.samplesToGet incoming readings)).sensorOffset
        = s.sensorOffset := by
  rw [collectData_success_eq _ _ _ _ hS]
  simp only [runTrace, List.foldl_cons, List.foldl_append, applyAction]
  obtain ⟨h1, h2, h3, h4, h5⟩ := runTrace_acqIter_fields readings
    (s.samplesToGet - s.samplesSent).toNat 0 s.samplesSent
    { s with timerRunning := true }
  simp only [runTrace] at h1 h2 h3 h4 h5
  simp [applyAction, h1, h2, h5]

theorem runTrace_set_capdac_fields (s : DeviceState) (avail : Nat → Bool)
    (buf : List Nat) :
    (runTrace s (set_capdac avail buf)).timerRunning = s.timerRunning ∧
    (runTrace s (set_capdac avail buf)).timerCounter = s.timerCounter ∧
    (runTrace s (set_capdac avail buf)).samplesToGet = s.samplesToGet ∧
    (runTrace s (set_capdac avail buf)).samplesSent = s.samplesSent ∧
    (runTrace s (set_capdac avail buf)).sensorOffset = s.sensorOffset := by
  cases h : pollAvail avail 0 200 <;>
    simp [set_capdac, h, runTrace, applyAction]

theorem runTrace_setSamplesToGet_fields (s : DeviceState) (avail : Nat → Bool)
    (buf : List Nat) :
    (runTrace s (setSamplesToGet avail buf)).timerRunning = s.timerRunning ∧
    (runTrace s (setSamplesToGet avail buf)).timerCounter = s.timerCounter ∧
    (runTrace s (setSamplesToGet avail buf)).capdac = s.capdac ∧
    (runTrace s (setSamplesToGet avail buf)).samplesSent = s.samplesSent ∧
    (runTrace s (setSamplesToGet avail buf)).sensorOffset = s.sensorOffset := by
  cases h : pollAvail avail 0 200 <;>
    simp [setSamplesToGet, h, runTrace, applyAction]

theorem runTrace_collectData_timer_off (s : DeviceState) (incoming : Nat → Option Nat)
    (readings : Nat → cap_sens_reading) (h : s.timerRunning = false) :
    (runTrace s (collectData s.samplesSent s.samplesToGet incoming readings)).timerRunning
      = false := by
  cases hp : pollForS incoming 0 200
  · rw [collectData_timeout_eq _ _ _ _ hp]
    simpa [runTrace, applyAction] using h
  · exact (runTrace_collectData_success s incoming readings hp).1

theorem loopDispatch_timer_off (s : DeviceState) (pc : Int) (inp : LoopInput)
    (h : s.timerRunning = false) :
    (loopDispatch s pc inp).1.timerRunning = false := by
  by_cases h0 : pc = 0x00
  · simp only [loopDispatch, h0, if_true]
    simpa using (runTrace_set_capdac_fields s inp.avail inp.buf).1.trans h
  · by_cases h1 : pc = 0x01
    · simp only [loopDispatch, h0, h1, if_false, if_true]
      simpa using (runTrace_setSamplesToGet_fields s inp.avail inp.buf).1.trans h
    · by_cases h2 : pc = 0x02
      · simp only [loopDispatch, h0, h1, h2, if_false, if_true]
        simpa using runTrace_collectData_timer_off s inp.incoming inp.readings h
      · simp only [loopDispatch, h0, h1, h2, if_false]
        exact h

theorem loop_timer_off (s : DeviceState) (inp : LoopInput)
    (h : s.timerRunning = false) :
    (loop s inp).1.timerRunning = false :=
  loopDispatch_timer_off s _ inp h

theorem encodeRecord_length (r : cap_sens_reading) : (encodeRecord r).length = 8 :=
  rfl

-- -----------------------------------------------------------------------
-- Claim theorems
-- -----------------------------------------------------------------------

/-- C3: for every opcode byte other than 0x00, 0x01 and 0x02 received
while no command is in flight, the device emits no echo byte and no
result marker (the iteration performs no action at all), the dispatcher
selects no handler, and capdac, samplesToGet and samplesSent keep their
previous values. -/
theorem C3_unrecognized_opcode_ignored (s : DeviceState) (inp : LoopInput) (b : Nat)
    (hb : inp.inByte = some b) (h : ¬(b = 0 ∨ b = 1 ∨ b = 2)) :
    (loop s inp).2 = [] ∧
    dispatch (b : Int) = none ∧
    (loop s inp).1.capdac = s.capdac ∧
    (loop s inp).1.samplesToGet = s.samplesToGet ∧
    (loop s inp).1.samplesSent = s.samplesSent ∧
    (loop s inp).1.timerRunning = s.timerRunning ∧
    (loop s inp).1 = { s with pcCommand := (b : Int) } := by
  have h0 : (b : Int) ≠ 0x00 := by omega
  have h1 : (b : Int) ≠ 0x01 := by omega
  have h2 : (b : Int) ≠ 0x02 := by omega
  have hL : loop s inp = ({ s with pcCommand := (b : Int) }, []) := by
    simp [loop, loopDispatch, hb, h0, h1, h2]
  rw [hL]
  refine ⟨rfl, ?_, rfl, rfl, rfl, rfl, rfl⟩
  simp [dispatch, h0, h1, h2]

/-- A concrete serial environment delivering the unrecognized opcode byte
0xFF to one loop() iteration. -/
def inpFF : LoopInput :=
  { inByte := some 255, avail := fun _ => false, buf := [],
    incoming := fun _ => none, readings := fun _ => ⟨0, 0⟩ }

/-- Witness for C3 at opcode byte 0xFF from the post-setup state. -/
theorem C3_witness :
    (loop setup inpFF).2 = [] ∧
    dispatch ((255 : Nat) : Int) = none ∧
    (loop setup inpFF).1.capdac = setup.capdac ∧
    (loop setup inpFF).1.samplesToGet = setup.samplesToGet ∧
    (loop setup inpFF).1.samplesSent = setup.samplesSent ∧
    (loop setup inpFF).1.timerRunning = setup.timerRunning ∧
    (loop setup inpFF).1 = { setup with pcCommand := ((255 : Nat) : Int) } :=
  C3_unrecognized_opcode_ignored setup inpFF 255 rfl (by decide)

/-- C4: for every positive configured sample count, one acquisition
session started by opcode 0x02 followed by the byte S transmits exactly
samplesToGet sample records, each serialized to the fixed 8-byte wire
form, and at the end of the session samplesSent is 0 again, so a new
0x02 command starts from the same initial counter state. -/
theorem C4_session_record_count (s : DeviceState) (incoming : Nat → Option Nat)
    (readings : Nat → cap_sens_reading)
    (hpos : 0 < s.samplesToGet) (h0 : s.samplesSent = 0)
    (hS : pollForS incoming 0 200 = true) :
    (recordsOf (collectData s.samplesSent s.samplesToGet incoming readings)).length
        = s.samplesToGet.toNat ∧
    (∀ r ∈ recordsOf (collectData s.samplesSent s.samplesToGet incoming readings),
        (encodeRecord r).length = 8) ∧
    (runTrace s (collectData s.samplesSent s.samplesToGet incoming readings)).samplesSent
        = 0 := by
  refine ⟨?_, fun r _ => encodeRecord_length r, (runTrace_collectData_success s incoming readings hS).2.2.1⟩
  rw [collectData_success_eq _ _ _ _ hS]
  simp only [recordsOf, List.filterMap_cons, List.filterMap_append, List.length_append]
  have hlen := recordsOf_acqIter readings (s.samplesToGet - s.samplesSent).toNat 0 s.samplesSent
  simp only [recordsOf] at hlen
  simp only [hlen, List.filterMap_cons, List.filterMap_nil, List.length_nil]
  omega

/-- A post-setup state whose configured sample count is 2. -/
def stateTwoSamples : DeviceState :=
  { capdac := 0, samplesToGet := 2, samplesSent := 0, pcCommand := -1,
    timer_interruptFlag := false, timerRunning := false, timerCounter := 0,
    sensorOffset := 0 }

/-- Witness for C4 with sample count 2 and the payload byte S available
at the first handshake poll. -/
theorem C4_witness :
    (recordsOf (collectData stateTwoSamples.samplesSent stateTwoSamples.samplesToGet
        (fun _ => some 83) (fun _ => ⟨0, 0⟩))).length = (2 : Int).toNat ∧
    (∀ r ∈ recordsOf (collectData stateTwoSamples.samplesSent stateTwoSamples.samplesToGet
        (fun _ => some 83) (fun _ => ⟨0, 0⟩)), (encodeRecord r).length = 8) ∧
    (runTrace stateTwoSamples (collectData stateTwoSamples.samplesSent
        stateTwoSamples.samplesToGet (fun _ => some 83) (fun _ => ⟨0, 0⟩))).samplesSent
        = 0 :=
  C4_session_record_count stateTwoSamples (fun _ => some 83) (fun _ => ⟨0, 0⟩)
    (by decide) rfl (by decide)

/-- C5: when no required payload arrives within the 200-retry budget,
each handler sends the single failure marker F and the configuration is
left exactly as it was: the handler traces are echo followed by marker F
only, the resulting state equals the previous state, no timer start is
issued and no record is transmitted. -/
theorem C5_timeout_no_change (s : DeviceState) (avail : Nat → Bool) (buf : List Nat)
    (incoming : Nat → Option Nat) (readings : Nat → cap_sens_reading)
    (hA : ∀ i, i < 200 → avail i = false)
    (hI : ∀ i, i < 200 → incoming i ≠ some 83) :
    set_capdac avail buf = [Action.writeByte 0x00, Action.printByte 70] ∧
    setSamplesToGet avail buf = [Action.writeByte 0x01, Action.printByte 70] ∧
    collectData s.samplesSent s.samplesToGet incoming readings
        = [Action.writeByte 0x02, Action.printByte 70] ∧
    runTrace s (set_capdac avail buf) = s ∧
    runTrace s (setSamplesToGet avail buf) = s ∧
    runTrace s (collectData s.samplesSent s.samplesToGet incoming readings) = s ∧
    Action.timerStart ∉ collectData s.samplesSent s.samplesToGet incoming readings ∧
    recordsOf (collectData s.samplesSent s.samplesToGet incoming readings) = [] := by
  have hN : pollAvail avail 0 200 = none :=
    pollAvail_eq_none avail 200 0 (fun i hi => by simpa using hA i hi)
  have hF : pollForS incoming 0 200 = false :=
    pollForS_eq_false incoming 200 0 (fun i hi => by simpa using hI i hi)
  have e1 : set_capdac avail buf = [Action.writeByte 0x00, Action.printByte 70] := by
    simp [set_capdac, hN]
  have e2 : setSamplesToGet avail buf = [Action.writeByte 0x01, Action.printByte 70] := by
    simp [setSamplesToGet, hN]
  have e3 := collectData_timeout_eq s.samplesSent s.samplesToGet incoming readings hF
  refine ⟨e1, e2, e3, ?_, ?_, ?_, ?_, ?_⟩
  · rw [e1]; rfl
  · rw [e2]; rfl
  · rw [e3]; rfl
  · rw [e3]; simp
  · rw [e3]; rfl

/-- Witness for C5 with an empty serial link: no byte ever arrives. -/
theorem C5_witness :
    set_capdac (fun _ => false) [] = [Action.writeByte 0x00, Action.printByte 70] ∧
    setSamplesToGet (fun _ => false) [] = [Action.writeByte 0x01, Action.printByte 70] ∧
    collectData setup.samplesSent setup.samplesToGet (fun _ => none) (fun _ => ⟨0, 0⟩)
        = [Action.writeByte 0x02, Action.printByte 70] ∧
    runTrace setup (set_capdac (fun _ => false) []) = setup ∧
    runTrace setup (setSamplesToGet (fun _ => false) []) = setup ∧
    runTrace setup (collectData setup.samplesSent setup.samplesToGet (fun _ => none)
        (fun _ => ⟨0, 0⟩)) = setup ∧
    Action.timerStart ∉ collectData setup.samplesSent setup.samplesToGet (fun _ => none)
        (fun _ => ⟨0, 0⟩) ∧
    recordsOf (collectData setup.samplesSent setup.samplesToGet (fun _ => none)
        (fun _ => ⟨0, 0⟩)) = [] :=
  C5_timeout_no_change setup (fun _ => false) [] (fun _ => none) (fun _ => ⟨0, 0⟩)
    (fun _ _ => rfl) (by decide)

/-- C9: encoding a sample record as its 8 raw bytes, timestamp field
first (4 bytes) and value field next (4 bytes) with no padding, and
decoding those bytes reconstructs exactly the captured timestamp and
value, with no byte reordering or truncation, for every timestamp in the
uint32 range and every value in the int32 range. -/
theorem C9_record_roundtrip (r : cap_sens_reading)
    (h1 : r.cap_sens_timestamp < 4294967296)
    (h2 : -2147483648 ≤ r.cap_sens_data) (h3 : r.cap_sens_data < 2147483648) :
    (encodeRecord r).length = 8 ∧ decodeRecord (encodeRecord r) = some r := by
  refine ⟨rfl, ?_⟩
  have hu0 : 0 ≤ r.cap_sens_data % 4294967296 :=
    Int.emod_nonneg r.cap_sens_data (by norm_num)
  have hu1 : r.cap_sens_data % 4294967296 < 4294967296 :=
    Int.emod_lt_of_pos r.cap_sens_data (by norm_num)
  have hult : uint32OfInt32 r.cap_sens_data < 4294967296 := by
    unfold uint32OfInt32; omega
  simp only [encodeRecord, toLEBytes4, List.cons_append, List.nil_append, decodeRecord]
  have hts : fromLEBytes4 (r.cap_sens_timestamp % 256) (r.cap_sens_timestamp / 256 % 256)
      (r.cap_sens_timestamp / 65536 % 256) (r.cap_sens_timestamp / 16777216 % 256)
      = r.cap_sens_timestamp := by
    unfold fromLEBytes4; omega
  have hvv : fromLEBytes4 (uint32OfInt32 r.cap_sens_data % 256)
      (uint32OfInt32 r.cap_sens_data / 256 % 256)
      (uint32OfInt32 r.cap_sens_data / 65536 % 256)
      (uint32OfInt32 r.cap_sens_data / 16777216 % 256)
      = uint32OfInt32 r.cap_sens_data := by
    unfold fromLEBytes4; omega
  rw [hts, hvv]
  have hback : int32OfUint32 (uint32OfInt32 r.cap_sens_data) = r.cap_sens_data := by
    unfold int32OfUint32 uint32OfInt32
    split <;> omega
  rw [hback]

/-- Witness for C9 at a concrete record with a negative sensor value. -/
theorem C9_witness :
    (encodeRecord ⟨123456, -5⟩).length = 8 ∧
    decodeRecord (encodeRecord ⟨123456, -5⟩) = some ⟨123456, -5⟩ :=
  C9_record_roundtrip ⟨123456, -5⟩ (by decide) (by decide) (by decide)

/-- C10: if samplesToGet holds zero or a negative value when opcode 0x02
followed by the byte S is received, the device still echoes 0x02 and
replies O, the acquisition loop body never executes (zero records are
transmitted), and the handler terminates with the timer paused, its
counter at 0 and samplesSent equal to 0. -/
theorem C10_nonpositive_count (s : DeviceState) (incoming : Nat → Option Nat)
    (readings : Nat → cap_sens_reading)
    (hn : s.samplesToGet ≤ 0) (h0 : s.samplesSent = 0)
    (hS : pollForS incoming 0 200 = true) :
    collectData s.samplesSent s.samplesToGet incoming readings =
      [Action.writeByte 0x02, Action.printByte 79, Action.timerStart,
       Action.timerPause, Action.timerSetCounter 0, Action.storeSamplesSent 0] ∧
    recordsOf (collectData s.samplesSent s.samplesToGet incoming readings) = [] ∧
    (runTrace s (collectData s.samplesSent s.samplesToGet incoming readings)).timerRunning
        = false ∧
    (runTrace s (collectData s.samplesSent s.samplesToGet incoming readings)).timerCounter
        = 0 ∧
    (runTrace s (collectData s.samplesSent s.samplesToGet incoming readings)).samplesSent
        = 0 := by
  have hz : (s.samplesToGet - s.samplesSent).toNat = 0 := by omega
  have htr : collectData s.samplesSent s.samplesToGet incoming readings =
      [Action.writeByte 0x02, Action.printByte 79, Action.timerStart,
       Action.timerPause, Action.timerSetCounter 0, Action.storeSamplesSent 0] := by
    rw [collectData_success_eq _ _ _ _ hS, hz]
    rfl
  obtain ⟨t1, t2, t3, _, _, _⟩ := runTrace_collectData_success s incoming readings hS
  refine ⟨htr, ?_, t1, t2, t3⟩
  rw [htr]
  rfl

/-- A post-setup state whose configured sample count is 0 (set for
instance by opcode 0x01 with payload 0). -/
def stateZeroSamples : DeviceState :=
  { capdac := 0, samplesToGet := 0, samplesSent := 0, pcCommand := -1,
    timer_interruptFlag := false, timerRunning := false, timerCounter := 0,
    sensorOffset := 0 }

/-- Witness for C10 with sample count 0 and an immediate S payload. -/
theorem C10_witness :
    collectData stateZeroSamples.samplesSent stateZeroSamples.samplesToGet
        (fun _ => some 83) (fun _ => ⟨0, 0⟩) =
      [Action.writeByte 0x02, Action.printByte 79, Action.timerStart,
       Action.timerPause, Action.timerSetCounter 0, Action.storeSamplesSent 0] ∧
    recordsOf (collectData stateZeroSamples.samplesSent stateZeroSamples.samplesToGet
        (fun _ => some 83) (fun _ => ⟨0, 0⟩)) = [] ∧
    (runTrace stateZeroSamples (collectData stateZeroSamples.samplesSent
        stateZeroSamples.samplesToGet (fun _ => some 83) (fun _ => ⟨0, 0⟩))).timerRunning
        = false ∧
    (runTrace stateZeroSamples (collectData stateZeroSamples.samplesSent
        stateZeroSamples.samplesToGet (fun _ => some 83) (fun _ => ⟨0, 0⟩))).timerCounter
        = 0 ∧
    (runTrace stateZeroSamples (collectData stateZeroSamples.samplesSent
        stateZeroSamples.samplesToGet (fun _ => some 83) (fun _ => ⟨0, 0⟩))).samplesSent
        = 0 :=
  C10_nonpositive_count stateZeroSamples (fun _ => some 83) (fun _ => ⟨0, 0⟩)
    (by decide) rfl (by decide)

/-- C7: the periodic timer runs only inside the acquisition window.  In
a successful session the timer start is the action immediately before
the acquisition loop and the pause plus counter reset follow immediately
after it (no timer action occurs inside the loop), the session ends with
the timer not running and its counter at 0, a failed handshake issues no
timer start, every loop() iteration started with the timer off ends with
the timer off, and setup() leaves the timer paused at counter 0. -/
theorem C7_timer_scoped (s : DeviceState) (inp : LoopInput)
    (incoming incomingF : Nat → Option Nat) (readings : Nat → cap_sens_reading)
    (hS : pollForS incoming 0 200 = true) (hF : pollForS incomingF 0 200 = false)
    (hIdle : s.timerRunning = false) :
    collectData s.samplesSent s.samplesToGet incoming readings =
      Action.writeByte 0x02 :: Action.printByte 79 :: Action.timerStart ::
        (acqIter readings 0 s.samplesSent (s.samplesToGet - s.samplesSent).toNat ++
          [Action.timerPause, Action.timerSetCounter 0, Action.storeSamplesSent 0]) ∧
    Action.timerStart ∉ acqIter readings 0 s.samplesSent
        (s.samplesToGet - s.samplesSent).toNat ∧
    Action.timerPause ∉ acqIter readings 0 s.samplesSent
        (s.samplesToGet - s.samplesSent).toNat ∧
    (runTrace s (collectData s.samplesSent s.samplesToGet incoming readings)).timerRunning
        = false ∧
    (runTrace s (collectData s.samplesSent s.samplesToGet incoming readings)).timerCounter
        = 0 ∧
    collectData s.samplesSent s.samplesToGet incomingF readings
        = [Action.writeByte 0x02, Action.printByte 70] ∧
    Action.timerStart ∉ collectData s.samplesSent s.samplesToGet incomingF readings ∧
    (loop s inp).1.timerRunning = false ∧
    setup.timerRunning = false ∧ setup.timerCounter = 0 := by
  obtain ⟨hni, hnp⟩ := acqIter_no_timer readings
    (s.samplesToGet - s.samplesSent).toNat 0 s.samplesSent
  obtain ⟨t1, t2, _, _, _, _⟩ := runTrace_collectData_success s incoming readings hS
  have hFe := collectData_timeout_eq s.samplesSent s.samplesToGet incomingF readings hF
  refine ⟨collectData_success_eq _ _ _ _ hS, hni, hnp, t1, t2, hFe, ?_,
    loop_timer_off s inp hIdle, rfl, rfl⟩
  rw [hFe]
  simp

/-- A serial environment for one loop() iteration that carries no byte at
all. -/
def inpQuiet : LoopInput :=
  { inByte := none, avail := fun _ => false, buf := [],
    incoming := fun _ => none, readings := fun _ => ⟨0, 0⟩ }

/-- Witness for C7 from the post-setup state, with an immediate S
payload for the successful session and a silent link for the failed
one. -/
theorem C7_witness :
    collectData setup.samplesSent setup.samplesToGet (fun _ => some 83)
        (fun _ => ⟨0, 0⟩) =
      Action.writeByte 0x02 :: Action.printByte 79 :: Action.timerStart ::
        (acqIter (fun _ => ⟨0, 0⟩) 0 setup.samplesSent
            (setup.samplesToGet - setup.samplesSent).toNat ++
          [Action.timerPause, Action.timerSetCounter 0, Action.storeSamplesSent 0]) ∧
    Action.timerStart ∉ acqIter (fun _ => (⟨0, 0⟩ : cap_sens_reading)) 0 setup.samplesSent
        (setup.samplesToGet - setup.samplesSent).toNat ∧
    Action.timerPause ∉ acqIter (fun _ => (⟨0, 0⟩ : cap_sens_reading)) 0 setup.samplesSent
        (setup.samplesToGet - setup.samplesSent).toNat ∧
    (runTrace setup (collectData setup.samplesSent setup.samplesToGet (fun _ => some 83)
        (fun _ => ⟨0, 0⟩))).timerRunning = false ∧
    (runTrace setup (collectData setup.samplesSent setup.samplesToGet (fun _ => some 83)
        (fun _ => ⟨0, 0⟩))).timerCounter = 0 ∧
    collectData setup.samplesSent setup.samplesToGet (fun _ => none) (fun _ => ⟨0, 0⟩)
        = [Action.writeByte 0x02, Action.printByte 70] ∧
    Action.timerStart ∉ collectData setup.samplesSent setup.samplesToGet (fun _ => none)
        (fun _ => ⟨0, 0⟩) ∧
    (loop setup inpQuiet).1.timerRunning = false ∧
    setup.timerRunning = false ∧ setup.timerCounter = 0 :=
  C7_timer_scoped setup inpQuiet (fun _ => some 83) (fun _ => none) (fun _ => ⟨0, 0⟩)
    (by decide) (by decide) rfl

/-- C8: every command handler polling loop terminates within the 200
retry budget: for every serial environment each handler trace is either
the success trace or the echo-then-F trace, and a successful poll
observes its payload at an iteration index strictly below 200. -/
theorem C8_polling_bounded (avail : Nat → Bool) (buf : List Nat)
    (incoming : Nat → Option Nat) (readings : Nat → cap_sens_reading)
    (sent toGet : Int) :
    (set_capdac avail buf
        = [Action.writeByte 0x00, Action.storeCapdac (parseInt buf), Action.printByte 79] ∨
      set_capdac avail buf = [Action.writeByte 0x00, Action.printByte 70]) ∧
    (setSamplesToGet avail buf
        = [Action.writeByte 0x01, Action.storeSamplesToGet (parseInt buf),
           Action.printByte 79] ∨
      setSamplesToGet avail buf = [Action.writeByte 0x01, Action.printByte 70]) ∧
    (collectData sent toGet incoming readings =
        Action.writeByte 0x02 :: Action.printByte 79 :: Action.timerStart ::
          (acqIter readings 0 sent (toGet - sent).toNat ++
            [Action.timerPause, Action.timerSetCounter 0, Action.storeSamplesSent 0]) ∨
      collectData sent toGet incoming readings
        = [Action.writeByte 0x02, Action.printByte 70]) ∧
    (pollAvail avail 0 200 = none ∨
      ∃ t, t < 200 ∧ avail t = true ∧ pollAvail avail 0 200 = some t) ∧
    (pollForS incoming 0 200 = false ∨ ∃ t, t < 200 ∧ incoming t = some 83) := by
  refine ⟨?_, ?_, ?_, ?_, ?_⟩
  · cases h : pollAvail avail 0 200 with
    | none => exact Or.inr (by simp [set_capdac, h])
    | some u => exact Or.inl (by simp [set_capdac, h])
  · cases h : pollAvail avail 0 200 with
    | none => exact Or.inr (by simp [setSamplesToGet, h])
    | some u => exact Or.inl (by simp [setSamplesToGet, h])
  · cases h : pollForS incoming 0 200 with
    | false => exact Or.inr (collectData_timeout_eq _ _ _ _ h)
    | true => exact Or.inl (collectData_success_eq _ _ _ _ h)
  · cases h : pollAvail avail 0 200 with
    | none => exact Or.inl rfl
    | some u =>
      obtain ⟨_, h2, h3⟩ := pollAvail_eq_some avail 200 0 u h
      exact Or.inr ⟨u, by omega, h3, rfl⟩
  · cases h : pollForS incoming 0 200 with
    | false => exact Or.inl rfl
    | true =>
      obtain ⟨u, _, h2, h3⟩ := pollForS_eq_true incoming 200 0 h
      exact Or.inr ⟨u, by omega, h3⟩

/-- C2 counterexample: in a successful acquisition session with one
sample, a record write occurs strictly after the success marker O was
printed, so the marker is not sent only after the sample stream has been
produced; the claim as stated is false for the start-acquisition
command. -/
theorem C2_counterexample :
    recordAfterMarkerO (collectData 0 1 (fun _ => some 83) (fun _ => ⟨0, 0⟩)) = true := by
  decide

/-- C2 amended: for the two configuration commands the new value is
stored before the success marker O is printed; for the start-acquisition
command the marker O is printed after the S handshake succeeds but
before the acquisition loop runs, so the sample stream follows the
marker. -/
theorem C2_marker_order (avail : Nat → Bool) (buf : List Nat)
    (incoming : Nat → Option Nat) (readings : Nat → cap_sens_reading)
    (sent toGet : Int)
    (hA : ∃ t, pollAvail avail 0 200 = some t)
    (hS : pollForS incoming 0 200 = true) :
    set_capdac avail buf
      = [Action.writeByte 0x00, Action.storeCapdac (parseInt buf), Action.printByte 79] ∧
    setSamplesToGet avail buf
      = [Action.writeByte 0x01, Action.storeSamplesToGet (parseInt buf),
         Action.printByte 79] ∧
    collectData sent toGet incoming readings =
      Action.writeByte 0x02 :: Action.printByte 79 :: Action.timerStart ::
        (acqIter readings 0 sent (toGet - sent).toNat ++
          [Action.timerPause, Action.timerSetCounter 0, Action.storeSamplesSent 0]) := by
  obtain ⟨t, ht⟩ := hA
  exact ⟨by simp [set_capdac, ht], by simp [setSamplesToGet, ht],
    collectData_success_eq _ _ _ _ hS⟩

/-- Witness for the amended C2 with the payload byte 5 (ASCII 53)
available at the first poll and an immediate S handshake. -/
theorem C2_witness :
    set_capdac (fun _ => true) [53]
      = [Action.writeByte 0x00, Action.storeCapdac (parseInt [53]), Action.printByte 79] ∧
    setSamplesToGet (fun _ => true) [53]
      = [Action.writeByte 0x01, Action.storeSamplesToGet (parseInt [53]),
         Action.printByte 79] ∧
    collectData 0 1 (fun _ => some 83) (fun _ => ⟨0, 0⟩) =
      Action.writeByte 0x02 :: Action.printByte 79 :: Action.timerStart ::
        (acqIter (fun _ => ⟨0, 0⟩) 0 0 ((1 : Int) - 0).toNat ++
          [Action.timerPause, Action.timerSetCounter 0, Action.storeSamplesSent 0]) :=
  C2_marker_order (fun _ => true) [53] (fun _ => some 83) (fun _ => ⟨0, 0⟩) 0 1
    ⟨0, by decide⟩ (by decide)

/-- C6 counterexample: in the interleaving where the ISR fires once,
the loop reads the flag as true, the ISR fires again inside the window
between the read and the clear, and the loop then clears the flag, the
in-window set is erased without ever being observable: exactly one set
is lost in the read-to-clear window, so the loop does not consume the
flag with a single atomic test-and-clear step and an in-window set can
be lost. -/
theorem C6_counterexample :
    (runHandoff initHandoff
      [HandoffEvent.isrSet, HandoffEvent.loopRead, HandoffEvent.isrSet,
       HandoffEvent.loopClear]).lostInWindow = 1 := by
  decide

/-- C6 amended: the acquisition loop consumes the trigger flag with a
non-atomic read followed by a separate clear; the handler's only
shared-state operation is setting the flag to true (it never touches the
loop position or the ghost loss counter), and there exists an
interleaving in which a set performed in the window between the loop
read and its clear is lost. -/
theorem C6_handoff_two_step (s : HandoffState) :
    (hstep s HandoffEvent.isrSet).timer_interruptFlag = true ∧
    (hstep s HandoffEvent.isrSet).pc = s.pc ∧
    (hstep s HandoffEvent.isrSet).lostInWindow = s.lostInWindow ∧
    ∃ es : List HandoffEvent, (runHandoff initHandoff es).lostInWindow > 0 := by
  refine ⟨rfl, rfl, rfl, ⟨[HandoffEvent.isrSet, HandoffEvent.loopRead,
    HandoffEvent.isrSet, HandoffEvent.loopClear], by decide⟩⟩

/-- C1: evaluation at the failing input.  After boot (setup configures
the sensor once with the then-current capdac, 0), sending opcode 0x00
with the ASCII payload 5 available at the first poll stores 5 into the
capdac variable and replies with the marker O, but the offset stored in
the sensor measurement configuration stays 0, and it still is 0 after a
subsequent acquisition session: no code path ever passes the new capdac
to the sensor after setup, so the offset used by subsequent acquisitions
does not equal the value that was acknowledged. -/
theorem C1_capdac_not_applied :
    set_capdac (fun _ => true) (natToDecimal 5)
      = [Action.writeByte 0x00, Action.storeCapdac 5, Action.printByte 79] ∧
    (runTrace setup (set_capdac (fun _ => true) (natToDecimal 5))).capdac = 5 ∧
    (runTrace setup (set_capdac (fun _ => true) (natToDecimal 5))).sensorOffset = 0 ∧
    (runTrace (runTrace setup (set_capdac (fun _ => true) (natToDecimal 5)))
      (collectData
        (runTrace setup (set_capdac (fun _ => true) (natToDecimal 5))).samplesSent
        (runTrace setup (set_capdac (fun _ => true) (natToDecimal 5))).samplesToGet
        (fun _ => some 83) (fun _ => ⟨0, 0⟩))).sensorOffset = 0 := by
  decide

end FDC
